import Mathlib

/-!
Shallow embedding of the real-time fan-out core of `txt2pptx`:
the WebSocket connection registry (`src/app/websocket/manager.py`),
the per-connection command handler (`src/app/api/websocket.py`) and
the webhook event-ingestion adapter (`src/app/api/webhook.py`).

Modelling conventions:
* Python dicts become `Finmap` (finite maps up to reordering — matching
  Python dict equality); Python sets become `Finset String`.
* A live `WebSocket` object is identified by an opaque `Nat` token.
  Whether `send_json` on a given socket succeeds is an oracle
  `ok : Nat → Bool` supplied to each operation (the code catches every
  send exception, so only success/failure is observable).
* Outbound effects (successful `send_json` calls, `close` calls on
  replaced sockets) are returned as an explicit effect list.
* Python iterates sets and dict key views in an unspecified order; the
  model fixes one admissible order, sorted by `sortedList` below.
* `datetime.now()` timestamp fields carry no information relevant to any
  property and are omitted from the message model; string fields that are
  compile-time constants in the source are implicit in each constructor.
* Exceptions raised by collaborator calls (task tracker, PPT generator,
  video service) are modelled by `Except String`-valued oracles in an
  `Env` record; a handler that lets an exception escape returns
  `some errorMessage` in its third component.
-/

namespace Txt2Pptx

/-- Boolean lexicographic comparison of character lists (by code point),
used to fix a canonical iteration order for Python sets and dict key
views, whose order is unspecified. -/
def charsLeb : List Char → List Char → Bool
  | [], _ => true
  | _ :: _, [] => false
  | a :: as, b :: bs =>
      if a.toNat < b.toNat then true
      else if b.toNat < a.toNat then false
      else charsLeb as bs

/-- Boolean lexicographic comparison of strings. -/
def strLeb (a b : String) : Bool :=
  charsLeb a.data b.data

/-- The propositional form of `strLeb`, a decidable linear order used
only to enumerate finite sets canonically. -/
def strRel (a b : String) : Prop :=
  strLeb a b = true

instance : DecidableRel strRel :=
  fun a b => Bool.decEq (strLeb a b) true

instance : IsTotal String strRel where
  total := by
    intro a b
    show charsLeb a.data b.data = true ∨ charsLeb b.data a.data = true
    generalize a.data = x
    generalize b.data = y
    induction x generalizing y with
    | nil => exact Or.inl rfl
    | cons c cs ih =>
        cases y with
        | nil => exact Or.inr rfl
        | cons d ds =>
            rcases Nat.lt_trichotomy c.toNat d.toNat with h | h | h
            · left
              simp [charsLeb, h]
            · rcases ih ds with h2 | h2
              · left
                simp [charsLeb, h, Nat.lt_irrefl, h2]
              · right
                simp [charsLeb, h.symm, Nat.lt_irrefl, h2]
            · right
              simp [charsLeb, h]

instance : IsTrans String strRel where
  trans := by
    intro a b c hab hbc
    show charsLeb a.data c.data = true
    replace hab : charsLeb a.data b.data = true := hab
    replace hbc : charsLeb b.data c.data = true := hbc
    generalize a.data = x at hab ⊢
    generalize b.data = y at hab hbc
    generalize c.data = z at hbc ⊢
    induction x generalizing y z with
    | nil => rfl
    | cons u us ih =>
        cases y with
        | nil => simp [charsLeb] at hab
        | cons v vs =>
            cases z with
            | nil => simp [charsLeb] at hbc
            | cons w ws =>
                simp only [charsLeb] at hab hbc ⊢
                rcases Nat.lt_trichotomy u.toNat v.toNat with h1 | h1 | h1 <;>
                  rcases Nat.lt_trichotomy v.toNat w.toNat with h2 | h2 | h2
                · simp [Nat.lt_trans h1 h2]
                · simp [h2 ▸ h1]
                · simp [h1, Nat.lt_asymm h1, Nat.lt_irrefl] at hab
                  simp [h2, Nat.lt_asymm h2] at hbc
                · simp [h1 ▸ h2]
                · rw [h1] at hab ⊢
                  rw [h2] at hbc ⊢
                  simp only [Nat.lt_irrefl, if_false] at hab hbc ⊢
                  exact ih vs hab ws hbc
                · simp [h2, Nat.lt_asymm h2] at hbc
                · simp [h1, Nat.lt_asymm h1] at hab
                · simp [h1, Nat.lt_asymm h1] at hab
                · simp [h1, Nat.lt_asymm h1] at hab

instance : IsAntisymm String strRel where
  antisymm := by
    intro a b hab hba
    replace hab : charsLeb a.data b.data = true := hab
    replace hba : charsLeb b.data a.data = true := hba
    have key : a.data = b.data := by
      generalize a.data = x at hab hba
      generalize b.data = y at hab hba
      induction x generalizing y with
      | nil =>
          cases y with
          | nil => rfl
          | cons d ds => simp [charsLeb] at hba
      | cons c cs ih =>
          cases y with
          | nil => simp [charsLeb] at hab
          | cons d ds =>
              simp only [charsLeb] at hab hba
              rcases Nat.lt_trichotomy c.toNat d.toNat with h | h | h
              · simp [h, Nat.lt_asymm h, Nat.lt_irrefl] at hba
              · have hcd : c = d := Char.eq_of_val_eq (UInt32.ext h)
                subst hcd
                simp only [Nat.lt_irrefl, if_neg, if_false] at hab hba
                rw [ih ds hab hba]
              · simp [h, Nat.lt_asymm h, Nat.lt_irrefl] at hab
    cases a with
    | mk la =>
        cases b with
        | mk lb => exact congrArg String.mk key

/-- Canonical enumeration of a finite set of strings: the unique
`strRel`-sorted list of its elements.  This replaces Python's
unspecified set / dict-keys iteration order with one admissible,
deterministic order (the code never relies on the order). -/
def sortedList (s : Finset String) : List String :=
  Quot.liftOn s.val (fun l => l.insertionSort strRel)
    (fun l1 l2 h =>
      List.eq_of_perm_of_sorted
        ((List.perm_insertionSort strRel l1).trans
          ((Quotient.exact (Quot.sound h)).trans
            (List.perm_insertionSort strRel l2).symm))
        (List.sorted_insertionSort strRel l1)
        (List.sorted_insertionSort strRel l2))

/-- Result of `ConnectionManager.get_stats` (manager.py lines 245-252):
the four entries of the returned dict, in source order. -/
structure Stats where
  active_connections : Nat
  task_subscriptions : Nat
  clients : List String
  tasks_with_subscribers : List String
deriving DecidableEq, Repr

/-- One server→client push message.  Each constructor corresponds to one
dict literal in the source; the `type` field of the literal is recovered
by `ServerMsg.typeTag` below, and constant-string fields (e.g. the fixed
Chinese `message` texts) are implicit in the constructor. -/
inductive ServerMsg where
  /-- manager.py 71-76: the "connected" acknowledgement. -/
  | connected (client_id : String)
  /-- manager.py 134-139: the "subscribed" acknowledgement. -/
  | subscribed (task_id : String)
  /-- websocket.py 142-145: reply to a client "ping". -/
  | pong
  /-- websocket.py 80-84: server-initiated heartbeat probe. -/
  | ping
  /-- websocket.py 111-115, 122-127, 132-137, 161-165: "error" replies. -/
  | errorMsg (message : String)
  /-- websocket.py 153-158: the "stats" reply. -/
  | statsMsg (s : Stats)
  /-- webhook.py 184-192: the raw "webhook_event" push. -/
  | webhookEvent (event_id event_type task_id : String)
      (status message : Option String)
  /-- webhook.py 237-244: the "task_created" push. -/
  | taskCreatedMsg (task_id : String) (title url : Option String)
  /-- webhook.py 272-277: the progress push; its `type` is the computed
  `progress_type` string. -/
  | progressMsg (ptype task_id : String) (message : Option String)
  /-- webhook.py 323-331 and 343-349: the "task_completed" push; the
  variant without a local task omits `local_task_id` and `download_url`. -/
  | taskCompleted (task_id : String) (local_task_id title download_url : Option String)
  /-- webhook.py 361-366: the "task_ask" push. -/
  | taskAsk (task_id : String) (message : String)
  /-- webhook.py 335-340, 379-384, 521-527: the "task_failed" push. -/
  | taskFailed (task_id : String) (local_task_id : Option String) (error : String)
  /-- webhook.py 431-438: the "script_generation_completed" push. -/
  | scriptGenCompleted (task_id local_task_id : String) (video_task_id : Option String)
  /-- webhook.py 442-448: the "video_generation_started" push. -/
  | videoGenStarted (task_id local_task_id : String)
  /-- webhook.py 487-495: the "video_generation_completed" push. -/
  | videoGenCompleted (task_id local_task_id : String) (video_path : Option String)
      (download_url : String)
  /-- webhook.py 454-460: the "script_generation_failed" push. -/
  | scriptGenFailed (task_id local_task_id : String) (error : String)
  /-- webhook.py 501-507: the "video_generation_failed" push. -/
  | videoGenFailed (task_id local_task_id : String) (error : String)
deriving DecidableEq, Repr

/-- The `type` field of each push-message dict literal. -/
def ServerMsg.typeTag : ServerMsg → String
  | .connected _ => "connected"
  | .subscribed _ => "subscribed"
  | .pong => "pong"
  | .ping => "ping"
  | .errorMsg _ => "error"
  | .statsMsg _ => "stats"
  | .webhookEvent _ _ _ _ _ => "webhook_event"
  | .taskCreatedMsg _ _ _ => "task_created"
  | .progressMsg p _ _ => p
  | .taskCompleted _ _ _ _ => "task_completed"
  | .taskAsk _ _ => "task_ask"
  | .taskFailed _ _ _ => "task_failed"
  | .scriptGenCompleted _ _ _ => "script_generation_completed"
  | .videoGenStarted _ _ => "video_generation_started"
  | .videoGenCompleted _ _ _ _ => "video_generation_completed"
  | .scriptGenFailed _ _ _ => "script_generation_failed"
  | .videoGenFailed _ _ _ => "video_generation_failed"

/-- The `download_url` field of a push message, when the literal has one. -/
def ServerMsg.downloadUrl : ServerMsg → Option String
  | .taskCompleted _ _ _ u => u
  | .videoGenCompleted _ _ _ u => some u
  | _ => none

/-- A push message whose `type` is one of the failure tags the adapter
uses to report side-effect failures to subscribers. -/
def ServerMsg.isFailedType (m : ServerMsg) : Bool :=
  m.typeTag = "task_failed" || m.typeTag = "script_generation_failed" ||
    m.typeTag = "video_generation_failed"

/-- An externally visible effect of a registry / delivery operation. -/
inductive Eff where
  /-- Embeds `old_ws.close(...)` issued on a replaced connection (manager.py 61). -/
  | closed (ws : Nat)
  /-- A successful `websocket.send_json(message)` delivering `msg` to the
  client `client` over socket `ws` (manager.py 177). -/
  | sent (client : String) (ws : Nat) (msg : ServerMsg)
deriving DecidableEq, Repr

/-- Whether an effect is a successful delivery. -/
def Eff.isSent : Eff → Bool
  | .sent _ _ _ => true
  | _ => false

/-- The mutable state of `ConnectionManager` (manager.py lines 24-35):
`_active_connections : client_id → WebSocket`,
`_task_subscriptions : task_id → Set[client_id]`,
`_client_tasks : client_id → Set[task_id]`.
The asyncio lock is not represented: every modelled operation is one
atomic step, matching the code's lock-guarded critical sections. -/
structure ConnectionManager where
  active_connections : Finmap fun _ : String => Nat
  task_subscriptions : Finmap fun _ : String => Finset String
  client_tasks : Finmap fun _ : String => Finset String
deriving DecidableEq

namespace ConnectionManager

/-- The empty registry built by `ConnectionManager.__init__`. -/
def init : ConnectionManager := ⟨∅, ∅, ∅⟩

/-- Embeds `active_count` (manager.py 37-40): `len(self._active_connections)`. -/
def active_count (σ : ConnectionManager) : Nat :=
  σ.active_connections.keys.card

/-- Embeds `is_connected` (manager.py 233-235). -/
def is_connected (σ : ConnectionManager) (client_id : String) : Bool :=
  (σ.active_connections.lookup client_id).isSome

/-- The shared discard-then-prune step on the task-subscription dict:
`subs[task_id].discard(client_id); if not subs[task_id]: del subs[task_id]`
guarded by `if task_id in subs`.  This exact block appears twice in the
source: manager.py 100-105 (disconnect loop) and 150-153 (unsubscribe). -/
def pruneSub (m : Finmap fun _ : String => Finset String) (task_id client_id : String) :
    Finmap fun _ : String => Finset String :=
  match m.lookup task_id with
  | none => m
  | some s =>
      let s2 := s.erase client_id
      if s2 = ∅ then m.erase task_id else m.insert task_id s2

/-- Embeds `disconnect` (manager.py 84-108).  Pure state transformer: the code
sends nothing and returns `None`. -/
def disconnect (σ : ConnectionManager) (client_id : String) : ConnectionManager :=
  match σ.active_connections.lookup client_id with
  | none => σ
  | some _ =>
      let active2 := σ.active_connections.erase client_id
      match σ.client_tasks.lookup client_id with
      | none => { σ with active_connections := active2 }
      | some ts =>
          { active_connections := active2
            task_subscriptions :=
              (sortedList ts).foldl (fun m t => pruneSub m t client_id)
                σ.task_subscriptions
            client_tasks := σ.client_tasks.erase client_id }

/-- Embeds `send_to_client` (manager.py 160-184).  `ok w` tells whether
`send_json` on socket `w` succeeds; on failure the code calls
`self.disconnect(client_id)` and returns `False`. -/
def send_to_client (σ : ConnectionManager) (ok : Nat → Bool) (client_id : String)
    (m : ServerMsg) : ConnectionManager × List Eff × Bool :=
  match σ.active_connections.lookup client_id with
  | none => (σ, [], false)
  | some w =>
      if ok w then (σ, [.sent client_id w m], true)
      else (σ.disconnect client_id, [], false)

/-- Embeds `connect` (manager.py 42-82).  `acceptOk` models whether
`websocket.accept()` succeeds (the only statement the enclosing
`try` can realistically catch).  On success: close any previous socket
for this id (best effort — the close attempt is recorded as an effect
and any close failure is swallowed by the code), install the new socket,
reset `_client_tasks[client_id]` to an empty set, then send the
"connected" acknowledgement via `send_to_client`, and return `True`
regardless of the acknowledgement's outcome. -/
def connect (σ : ConnectionManager) (ok : Nat → Bool) (client_id : String) (w : Nat)
    (acceptOk : Bool) : ConnectionManager × List Eff × Bool :=
  if !acceptOk then (σ, [], false)
  else
    let closeEffs : List Eff :=
      match σ.active_connections.lookup client_id with
      | some oldw => [.closed oldw]
      | none => []
    let σ1 : ConnectionManager :=
      { active_connections := σ.active_connections.insert client_id w
        task_subscriptions := σ.task_subscriptions
        client_tasks := σ.client_tasks.insert client_id ∅ }
    let r := σ1.send_to_client ok client_id (.connected client_id)
    (r.1, closeEffs ++ r.2.1, true)

/-- Embeds `subscribe_task` (manager.py 110-139).  A no-op (with a warning log)
when the client is not connected; otherwise adds the pair to both
indices and sends the "subscribed" acknowledgement.  The code indexes
`self._client_tasks[client_id]` directly — in every reachable state a
connected client has an entry (created by `connect`), so the `getD ∅`
default is never exercised there. -/
def subscribe_task (σ : ConnectionManager) (ok : Nat → Bool)
    (client_id task_id : String) : ConnectionManager × List Eff :=
  match σ.active_connections.lookup client_id with
  | none => (σ, [])
  | some _ =>
      let σ1 : ConnectionManager :=
        { active_connections := σ.active_connections
          task_subscriptions := σ.task_subscriptions.insert task_id
            (insert client_id ((σ.task_subscriptions.lookup task_id).getD ∅))
          client_tasks := σ.client_tasks.insert client_id
            (insert task_id ((σ.client_tasks.lookup client_id).getD ∅)) }
      let r := σ1.send_to_client ok client_id (.subscribed task_id)
      (r.1, r.2.1)

/-- Embeds `unsubscribe_task` (manager.py 141-158).  Pure removal, no
acknowledgement. -/
def unsubscribe_task (σ : ConnectionManager) (client_id task_id : String) :
    ConnectionManager :=
  let subs2 := pruneSub σ.task_subscriptions task_id client_id
  match σ.client_tasks.lookup client_id with
  | none => { σ with task_subscriptions := subs2 }
  | some s =>
      { σ with
        task_subscriptions := subs2
        client_tasks := σ.client_tasks.insert client_id (s.erase task_id) }

/-- The `for client_id in subscribers: if await self.send_to_client(...):
success_count += 1` loop shared by `send_to_task_subscribers`
(manager.py 205-207) and `broadcast` (manager.py 226-228). -/
def sendLoop (σ : ConnectionManager) (ok : Nat → Bool) (m : ServerMsg) :
    List String → ConnectionManager × List Eff × Nat
  | [] => (σ, [], 0)
  | c :: cs =>
      let r1 := σ.send_to_client ok c m
      let r2 := sendLoop r1.1 ok m cs
      (r2.1, r1.2.1 ++ r2.2.1, if r1.2.2 then r2.2.2 + 1 else r2.2.2)

/-- Embeds `send_to_task_subscribers` (manager.py 186-210): early `return 0`
when the task has no entry; otherwise snapshot the subscriber set
(`list(...)` copy-before-iterate) and loop `send_to_client` over it,
counting successes. -/
def send_to_task_subscribers (σ : ConnectionManager) (ok : Nat → Bool)
    (task_id : String) (m : ServerMsg) : ConnectionManager × List Eff × Nat :=
  match σ.task_subscriptions.lookup task_id with
  | none => (σ, [], 0)
  | some _ =>
      let subscribers := sortedList ((σ.task_subscriptions.lookup task_id).getD ∅)
      sendLoop σ ok m subscribers

/-- Embeds `broadcast` (manager.py 212-231). -/
def broadcast (σ : ConnectionManager) (ok : Nat → Bool) (m : ServerMsg) :
    ConnectionManager × List Eff × Nat :=
  sendLoop σ ok m (sortedList σ.active_connections.keys)

/-- Embeds `get_stats` (manager.py 245-252). -/
def get_stats (σ : ConnectionManager) : Stats :=
  { active_connections := σ.active_count
    task_subscriptions := σ.task_subscriptions.keys.card
    clients := sortedList σ.active_connections.keys
    tasks_with_subscribers := sortedList σ.task_subscriptions.keys }

end ConnectionManager

/-- Python truthiness of an optional string field (`None` and `""` are
falsy). -/
def pyTruthy : Option String → Bool
  | some s => s ≠ ""
  | none => false

/-- Python `a or b` on optional strings: `a` unless it is falsy. -/
def pyOr (a b : Option String) : Option String :=
  match a with
  | some s => if s = "" then b else some s
  | none => b

/-- Python `a or b` where `b` is a string constant. -/
def pyOrD (a : Option String) (b : String) : String :=
  match a with
  | some s => if s = "" then b else s
  | none => b

/-- Python `f"...{x}"` of an optional string (`None` prints as "None"). -/
def pyStr : Option String → String
  | some s => s
  | none => "None"

/-- Embeds `TaskDetail` (webhook.py 26-34); the unused `attachments` list is
omitted. -/
structure TaskDetail where
  task_id : String
  task_title : Option String := none
  task_url : Option String := none
  message : Option String := none
  status : Option String := none
  stop_reason : Option String := none
deriving DecidableEq, Repr

/-- Embeds `ProgressDetail` (webhook.py 37-41). -/
structure ProgressDetail where
  task_id : String
  progress_type : Option String := none
  message : Option String := none
deriving DecidableEq, Repr

/-- Embeds `ManusWebhookPayload` (webhook.py 44-95). -/
structure ManusWebhookPayload where
  event_id : String
  event_type : String
  task_detail : Option TaskDetail := none
  progress_detail : Option ProgressDetail := none
  task_id : Option String := none
  task_title : Option String := none
  task_url : Option String := none
  status : Option String := none
  message : Option String := none
deriving DecidableEq, Repr

namespace ManusWebhookPayload

/-- Embeds `get_task_id` (webhook.py 60-69); `none` models the `ValueError`
raised when no source yields a (truthy) task id. -/
def get_task_id (p : ManusWebhookPayload) : Option String :=
  match p.task_detail with
  | some td => some td.task_id
  | none =>
      match p.progress_detail with
      | some pd => some pd.task_id
      | none => if pyTruthy p.task_id then p.task_id else none

/-- Embeds `get_task_title` (webhook.py 71-75). -/
def get_task_title (p : ManusWebhookPayload) : Option String :=
  match p.task_detail with
  | some td => td.task_title
  | none => p.task_title

/-- Embeds `get_task_url` (webhook.py 77-81). -/
def get_task_url (p : ManusWebhookPayload) : Option String :=
  match p.task_detail with
  | some td => td.task_url
  | none => p.task_url

/-- Embeds `get_status` (webhook.py 83-87). -/
def get_status (p : ManusWebhookPayload) : Option String :=
  match p.task_detail with
  | some td => td.status
  | none => p.status

/-- Embeds `get_message` (webhook.py 89-95). -/
def get_message (p : ManusWebhookPayload) : Option String :=
  match p.task_detail with
  | some td => td.message
  | none =>
      match p.progress_detail with
      | some pd => pd.message
      | none => p.message

end ManusWebhookPayload

/-- Task metadata the webhook handlers read from the tracker record:
`title` plus `metadata.get("task_type")` and `metadata.get("step")`. -/
structure TaskData where
  title : Option String := none
  task_type : Option String := none
  step : Option String := none
deriving DecidableEq, Repr

/-- The excluded collaborators (task tracker, PPT generator, Manus
client, video service) as deterministic oracles.  A `.error e` value
models the call raising an exception with text `e`. -/
structure Env where
  /-- Embeds `tracker.add_webhook_event` (webhook.py 167-180), keyed by task id. -/
  add_webhook_event : String → Except String Unit
  /-- Embeds `tracker.find_by_manus_task_id`, returning `local_task["id"]`. -/
  find_by_manus_task_id : String → Except String (Option String)
  /-- Embeds `tracker.get(local_task_id)`. -/
  getTask : String → Except String (Option TaskData)
  /-- Embeds `tracker.update(local_task_id, ..., status=...)`; only the raised /
  not-raised outcome is observable to the fan-out core. -/
  update : String → String → Except String Unit
  /-- Embeds `get_ppt_generator()` + `ppt_generator.download_completed_task`
  (webhook.py 317-318), keyed by the Manus task id. -/
  download_completed_task : String → Except String Unit
  /-- acquiring a client from `get_manus_client()` (webhook.py 415). -/
  get_manus_client : Except String Unit
  /-- Embeds `video_service.handle_script_generation_complete` returning
  `result.get("video_task_id")`. -/
  handle_script_generation_complete : String → String → Except String (Option String)
  /-- Embeds `video_service.handle_video_generation_complete` returning
  `result.get("video_path")`. -/
  handle_video_generation_complete : String → String → Except String (Option String)

/-- Embeds `handle_task_created` (webhook.py 215-244).  Third component: an
exception escaping to `handle_webhook_event`. -/
def handle_task_created (env : Env) (σ : ConnectionManager) (ok : Nat → Bool)
    (p : ManusWebhookPayload) : ConnectionManager × List Eff × Option String :=
  match p.get_task_id with
  | none => (σ, [], some "ValueError")
  | some task_id =>
      match env.find_by_manus_task_id task_id with
      | .error e => (σ, [], some e)
      | .ok localOpt =>
          let updErr : Option String :=
            match localOpt with
            | some lid =>
                match env.update lid "processing" with
                | .error e => some e
                | .ok _ => none
            | none => none
          match updErr with
          | some e => (σ, [], some e)
          | none =>
              let r := σ.send_to_task_subscribers ok task_id
                (.taskCreatedMsg task_id p.get_task_title p.get_task_url)
              (r.1, r.2.1, none)

/-- Embeds `handle_task_progress` (webhook.py 247-277). -/
def handle_task_progress (env : Env) (σ : ConnectionManager) (ok : Nat → Bool)
    (p : ManusWebhookPayload) (task_id : String) :
    ConnectionManager × List Eff × Option String :=
  match env.find_by_manus_task_id task_id with
  | .error e => (σ, [], some e)
  | .ok localOpt =>
      let ptypeE : Except String String :=
        match localOpt with
        | none => .ok "task_progress"
        | some lid =>
            match env.getTask lid with
            | .error e => .error e
            | .ok none => .ok "task_progress"
            | .ok (some td) =>
                .ok (if td.task_type = some "video_generation" then
                       if td.step = some "script_generation" then
                         "script_generation_progress"
                       else if td.step = some "video_generation" then
                         "video_generation_progress"
                       else "task_progress"
                     else "task_progress")
      match ptypeE with
      | .error e => (σ, [], some e)
      | .ok ptype =>
          let r := σ.send_to_task_subscribers ok task_id
            (.progressMsg ptype task_id p.get_message)
          (r.1, r.2.1, none)

/-- Embeds `handle_video_task_stopped` (webhook.py 387-527).  Each step
branch has an inner `try` whose `except` pushes the step's failed
message and then sets the failed status (webhook.py 422-466 for the
script step, 472-513 for the video step); the whole body is wrapped in
an outer `try` whose `except` (webhook.py 519-527) converts any still
escaping exception into a "task_failed" push. -/
def handle_video_task_stopped (env : Env) (σ : ConnectionManager) (ok : Nat → Bool)
    (localOpt : Option String) (task_step : Option String) (task_id : String) :
    ConnectionManager × List Eff × Option String :=
  match localOpt with
  | none => (σ, [], none)
  | some lid =>
      let inner : ConnectionManager × List Eff × Option String :=
        match env.get_manus_client with
        | .error e => (σ, [], some e)
        | .ok _ =>
            if task_step = some "script_generation" then
              match env.handle_script_generation_complete lid task_id with
              | .ok video_task_id =>
                  let r1 := σ.send_to_task_subscribers ok task_id
                    (.scriptGenCompleted task_id lid video_task_id)
                  match video_task_id with
                  | some v =>
                      let r2 := r1.1.send_to_task_subscribers ok v
                        (.videoGenStarted v lid)
                      (r2.1, r1.2.1 ++ r2.2.1, none)
                  | none => (r1.1, r1.2.1, none)
              | .error e =>
                  let r1 := σ.send_to_task_subscribers ok task_id
                    (.scriptGenFailed task_id lid ("触发视频生成失败: " ++ e))
                  match env.update lid "failed" with
                  | .error e2 => (r1.1, r1.2.1, some e2)
                  | .ok _ => (r1.1, r1.2.1, none)
            else if task_step = some "video_generation" then
              -- inner try (webhook.py 472-497): chaining call, the
              -- status="completed" update and the completed push; its
              -- except (webhook.py 499-513) catches a failure of either
              -- fallible step, pushes "video_generation_failed" and then
              -- sets status="failed", whose own failure escapes to the
              -- outer handler.
              let tryRes : Except String (ConnectionManager × List Eff) :=
                match env.handle_video_generation_complete lid task_id with
                | .error e => .error e
                | .ok video_path =>
                    match env.update lid "completed" with
                    | .error e => .error e
                    | .ok _ =>
                        let r1 := σ.send_to_task_subscribers ok task_id
                          (.videoGenCompleted task_id lid video_path
                            ("/api/v1/video/tasks/" ++ lid ++ "/download"))
                        .ok (r1.1, r1.2.1)
              match tryRes with
              | .ok res => (res.1, res.2, none)
              | .error e =>
                  let r1 := σ.send_to_task_subscribers ok task_id
                    (.videoGenFailed task_id lid ("下载视频失败: " ++ e))
                  match env.update lid "failed" with
                  | .error e2 => (r1.1, r1.2.1, some e2)
                  | .ok _ => (r1.1, r1.2.1, none)
            else (σ, [], none)
      match inner.2.2 with
      | none => inner
      | some e =>
          let r := inner.1.send_to_task_subscribers ok task_id
            (.taskFailed task_id (some lid) ("处理失败: " ++ e))
          (r.1, inner.2.1 ++ r.2.1, none)

/-- Embeds `handle_task_stopped` (webhook.py 280-384). -/
def handle_task_stopped (env : Env) (σ : ConnectionManager) (ok : Nat → Bool)
    (p : ManusWebhookPayload) : ConnectionManager × List Eff × Option String :=
  match p.get_task_id with
  | none => (σ, [], some "ValueError")
  | some task_id =>
      let task_title := p.get_task_title
      let message := p.get_message
      let stop_reason : Option String :=
        match p.task_detail with
        | some td => td.stop_reason
        | none => none
      match env.find_by_manus_task_id task_id with
      | .error e => (σ, [], some e)
      | .ok localOpt =>
          let metaE : Except String (Bool × Option String) :=
            match localOpt with
            | none => .ok (false, none)
            | some lid =>
                match env.getTask lid with
                | .error e => .error e
                | .ok none => .ok (false, none)
                | .ok (some td) =>
                    .ok (td.task_type = some "video_generation", td.step)
          match metaE with
          | .error e => (σ, [], some e)
          | .ok (is_video_task, task_step) =>
              if stop_reason = some "finish" then
                if is_video_task then
                  handle_video_task_stopped env σ ok localOpt task_step task_id
                else
                  match localOpt with
                  | some lid =>
                      let tryRes : Except String (Option TaskData) :=
                        match env.download_completed_task task_id with
                        | .error e => .error e
                        | .ok _ => env.getTask lid
                      match tryRes with
                      | .ok updatedOpt =>
                          let title := pyOr (updatedOpt.bind (fun td => td.title))
                            task_title
                          let r := σ.send_to_task_subscribers ok task_id
                            (.taskCompleted task_id (some lid) title
                              (some ("/api/tasks/" ++ lid ++ "/download")))
                          (r.1, r.2.1, none)
                      | .error e =>
                          let r := σ.send_to_task_subscribers ok task_id
                            (.taskFailed task_id none ("下载失败: " ++ e))
                          (r.1, r.2.1, none)
                  | none =>
                      let r := σ.send_to_task_subscribers ok task_id
                        (.taskCompleted task_id none task_title none)
                      (r.1, r.2.1, none)
              else if stop_reason = some "ask" then
                let updErr : Option String :=
                  match localOpt with
                  | some lid =>
                      match env.update lid "pending" with
                      | .error e => some e
                      | .ok _ => none
                  | none => none
                match updErr with
                | some e => (σ, [], some e)
                | none =>
                    let r := σ.send_to_task_subscribers ok task_id
                      (.taskAsk task_id (pyOrD message "任务需要您的输入"))
                    (r.1, r.2.1, none)
              else
                let updErr : Option String :=
                  match localOpt with
                  | some lid =>
                      match env.update lid "failed" with
                      | .error e => some e
                      | .ok _ => none
                  | none => none
                match updErr with
                | some e => (σ, [], some e)
                | none =>
                    let r := σ.send_to_task_subscribers ok task_id
                      (.taskFailed task_id none (pyOrD message "任务执行失败"))
                    (r.1, r.2.1, none)

/-- Embeds `handle_webhook_event` (webhook.py 156-212): the background task for
one ingested event.  Its whole body is wrapped in `try/except` that only
logs (webhook.py 211-212), so no exception escapes: effects performed
before a failure are kept, nothing more is sent. -/
def handle_webhook_event (env : Env) (σ : ConnectionManager) (ok : Nat → Bool)
    (p : ManusWebhookPayload) : ConnectionManager × List Eff :=
  match p.get_task_id with
  | none => (σ, [])
  | some task_id =>
      match env.add_webhook_event task_id with
      | .error _ => (σ, [])
      | .ok _ =>
          let r1 := σ.send_to_task_subscribers ok task_id
            (.webhookEvent p.event_id p.event_type task_id p.get_status p.get_message)
          let r2 : ConnectionManager × List Eff × Option String :=
            if p.event_type = "task_created" then
              handle_task_created env r1.1 ok p
            else if p.event_type = "task_progress" then
              handle_task_progress env r1.1 ok p task_id
            else if p.event_type = "task_stopped" then
              handle_task_stopped env r1.1 ok p
            else (r1.1, [], none)
          (r2.1, r1.2.1 ++ r2.2.1)

/-- The result of `json.loads` on one inbound client frame:
`invalid` = `JSONDecodeError`; `nonObject` = valid JSON that is not an
object (number, string, list, boolean or null); `obj` = an object with
its `action` / `task_id` entries (a non-string value behaves like an
unknown action, so `Option String` suffices). -/
inductive ClientJson where
  | invalid
  | nonObject
  | obj (action : Option String) (task_id : Option String)
deriving DecidableEq, Repr

/-- Embeds `_handle_client_message` (websocket.py 100-165).  Third component:
an exception escaping to the endpoint's read loop — the code only
guards `json.loads`, so `message.get("action")` on a non-object raises
`AttributeError` out of the function. -/
def handle_client_message (σ : ConnectionManager) (ok : Nat → Bool)
    (client_id : String) (j : ClientJson) :
    ConnectionManager × List Eff × Option String :=
  match j with
  | .invalid =>
      let r := σ.send_to_client ok client_id (.errorMsg "无效的 JSON 格式")
      (r.1, r.2.1, none)
  | .nonObject => (σ, [], some "AttributeError")
  | .obj action task_id =>
      if action = some "subscribe" then
        if pyTruthy task_id then
          let r := σ.subscribe_task ok client_id (task_id.getD "")
          (r.1, r.2, none)
        else
          let r := σ.send_to_client ok client_id (.errorMsg "订阅需要提供 task_id")
          (r.1, r.2.1, none)
      else if action = some "unsubscribe" then
        if pyTruthy task_id then
          (σ.unsubscribe_task client_id (task_id.getD ""), [], none)
        else
          let r := σ.send_to_client ok client_id (.errorMsg "取消订阅需要提供 task_id")
          (r.1, r.2.1, none)
      else if action = some "ping" then
        let r := σ.send_to_client ok client_id .pong
        (r.1, r.2.1, none)
      else if action = some "pong" then (σ, [], none)
      else if action = some "stats" then
        let r := σ.send_to_client ok client_id (.statsMsg σ.get_stats)
        (r.1, r.2.1, none)
      else
        let r := σ.send_to_client ok client_id
          (.errorMsg ("未知的 action: " ++ pyStr action))
        (r.1, r.2.1, none)

/-- One iteration of the endpoint read loop (websocket.py 67-97) for an
already-received frame: `_handle_client_message` is called; if it raises
anything (only the inner `asyncio.TimeoutError` is caught in the loop),
the `while` exits via the outer `except Exception` and the `finally`
block calls `manager.disconnect(client_id)`. -/
def endpoint_step (σ : ConnectionManager) (ok : Nat → Bool) (client_id : String)
    (j : ClientJson) : ConnectionManager × List Eff :=
  let r := handle_client_message σ ok client_id j
  match r.2.2 with
  | none => (r.1, r.2.1)
  | some _ => (r.1.disconnect client_id, r.2.1)

/-- Subscriber set currently recorded for a task (empty when the task
has no entry in `_task_subscriptions`). -/
def ConnectionManager.subsOf (σ : ConnectionManager) (task_id : String) : Finset String :=
  (σ.task_subscriptions.lookup task_id).getD ∅

/-- Task set currently recorded for a client (empty when the client has
no entry in `_client_tasks`). -/
def ConnectionManager.tasksOf (σ : ConnectionManager) (client_id : String) : Finset String :=
  (σ.client_tasks.lookup client_id).getD ∅

/-- A transport oracle on which every socket send succeeds. -/
def okAll : Nat → Bool := fun _ => true

/-- A sequence of `connect` calls for one `client_id`, each with a
successful handshake, accumulating the effects. -/
def ConnectionManager.connectSeq (σ : ConnectionManager) (ok : Nat → Bool)
    (client_id : String) : List Nat → ConnectionManager × List Eff
  | [] => (σ, [])
  | w :: ws =>
      let r := σ.connect ok client_id w true
      let r2 := r.1.connectSeq ok client_id ws
      (r2.1, r.2.1 ++ r2.2)

/-- Every stored subscriber-set entry is nonempty.  The code maintains
this in every reachable state: `subscribe_task` only ever adds to a set,
and both deletion sites remove an entry as soon as it becomes empty. -/
@[reducible] def ConnectionManager.statsWF (σ : ConnectionManager) : Prop :=
  ∀ t ∈ σ.task_subscriptions.keys, σ.subsOf t ≠ ∅

/-! ### Concrete scenario material -/

/-- Registry after `connect("c", socket 1)` from the empty state. -/
def connectedC : ConnectionManager :=
  (ConnectionManager.init.connect okAll "c" 1 true).1

/-- Registry after `connect("c", 1); subscribe("c", "t")`. -/
def ghost1 : ConnectionManager :=
  (connectedC.subscribe_task okAll "c" "t").1

/-- Registry after `connect("c", 1); subscribe("c", "t"); connect("c", 2)`
— the replacing connect of Scenario D with a subscription in place. -/
def ghost2 : ConnectionManager :=
  (ghost1.connect okAll "c" 2 true).1

/-- Registry after `connect("c1", 1); subscribe("c1", "t1")`. -/
def subClient : ConnectionManager :=
  ((ConnectionManager.init.connect okAll "c1" 1 true).1.subscribe_task okAll "c1" "t1").1

/-- Registry reached by `connect(c2); subscribe(c2, t); connect(c2);
disconnect(c2); connect(c1); subscribe(c1, t)` — after the replacing
connect of `c2` its ghost subscription to `t` survives, so `t` ends with
subscriber set `{c1, c2}` while only `c1` is connected. -/
def statsA : ConnectionManager :=
  ((((((ConnectionManager.init.connect okAll "c2" 9 true).1.subscribe_task
      okAll "c2" "t").1.connect okAll "c2" 10 true).1.disconnect
      "c2").connect okAll "c1" 1 true).1.subscribe_task okAll "c1" "t").1

/-- Registry reached by `connect(c1); subscribe(c1, t)` alone: `t` has
subscriber set `{c1}`. -/
def statsB : ConnectionManager :=
  ((ConnectionManager.init.connect okAll "c1" 1 true).1.subscribe_task okAll "c1" "t").1

/-- Collaborator oracles on which every call succeeds: the webhook for
task `"t1"` resolves to local task `"L1"`, a plain (non-video) task
whose PPT download succeeds. -/
def envOk : Env :=
  { add_webhook_event := fun _ => .ok ()
    find_by_manus_task_id := fun t => if t = "t1" then .ok (some "L1") else .ok none
    getTask := fun _ => .ok (some { title := some "Title" })
    update := fun _ _ => .ok ()
    download_completed_task := fun _ => .ok ()
    get_manus_client := .ok ()
    handle_script_generation_complete := fun _ _ => .ok none
    handle_video_generation_complete := fun _ _ => .ok none }

/-- Like `envOk` but the PPT download collaborator raises. -/
def envFailDl : Env :=
  { envOk with download_completed_task := fun _ => .error "boom" }

/-- Like `envOk` but `tracker.update` raises. -/
def envFailUpd : Env :=
  { envOk with update := fun _ _ => .error "boom" }

/-- Like `envOk` but the local task is a video task in its
script-generation step and the script-chaining collaborator raises. -/
def envScriptFail : Env :=
  { envOk with
    getTask := fun _ =>
      .ok (some ⟨some "Title", some "video_generation", some "script_generation"⟩)
    handle_script_generation_complete := fun _ _ => .error "boom" }

/-- Like `envOk` but the local task is a video task in its
video-generation step and the video-chaining collaborator raises. -/
def envVideoFail : Env :=
  { envOk with
    getTask := fun _ =>
      .ok (some ⟨some "Title", some "video_generation", some "video_generation"⟩)
    handle_video_generation_complete := fun _ _ => .error "boom" }

/-- Like `envOk` but the local task is a video task in its
video-generation step and setting `status="completed"` raises. -/
def envVideoUpdFail : Env :=
  { envOk with
    getTask := fun _ =>
      .ok (some ⟨some "Title", some "video_generation", some "video_generation"⟩)
    update := fun _ s => if s = "completed" then .error "boom" else .ok () }

/-- A `task_stopped` webhook payload for task `"t1"` with
`stop_reason = "finish"`. -/
def pFinish : ManusWebhookPayload :=
  { event_id := "e1"
    event_type := "task_stopped"
    task_detail := some { task_id := "t1", stop_reason := some "finish" } }

/-- A `task_stopped` webhook payload for task `"t1"` with
`stop_reason = "ask"`. -/
def pAsk : ManusWebhookPayload :=
  { event_id := "e1"
    event_type := "task_stopped"
    task_detail := some { task_id := "t1", stop_reason := some "ask" } }

/-! ### Lemmas about the canonical enumeration -/

theorem mem_sortedList {s : Finset String} {x : String} :
    x ∈ sortedList s ↔ x ∈ s := by
  cases s with
  | mk val nd =>
      induction val using Quotient.inductionOn with
      | h l =>
          show x ∈ l.insertionSort strRel ↔ _
          rw [List.mem_insertionSort]
          simp [Finset.mem_mk]

theorem sortedList_nodup (s : Finset String) : (sortedList s).Nodup := by
  cases s with
  | mk val nd =>
      induction val using Quotient.inductionOn with
      | h l =>
          have hl : l.Nodup := by simpa using nd
          exact ((List.perm_insertionSort strRel l).nodup_iff).mpr hl

/-! ### Lemmas about `pruneSub` and the disconnect pruning loop -/

theorem pruneSub_of_lookup_none {m : Finmap fun _ : String => Finset String}
    {t : String} (c : String) (h : m.lookup t = none) :
    ConnectionManager.pruneSub m t c = m := by
  unfold ConnectionManager.pruneSub
  rw [h]

theorem lookup_pruneSub_ne {m : Finmap fun _ : String => Finset String}
    {x t : String} (c : String) (h : x ≠ t) :
    (ConnectionManager.pruneSub m t c).lookup x = m.lookup x := by
  unfold ConnectionManager.pruneSub
  cases hm : m.lookup t with
  | none => rfl
  | some s =>
      dsimp only
      split
      · exact Finmap.lookup_erase_ne h
      · exact Finmap.lookup_insert_of_ne m h

theorem notMem_pruneSub_self (m : Finmap fun _ : String => Finset String)
    (t c : String) :
    c ∉ ((ConnectionManager.pruneSub m t c).lookup t).getD ∅ := by
  unfold ConnectionManager.pruneSub
  cases hm : m.lookup t with
  | none => simp [hm]
  | some s =>
      dsimp only
      split
      · simp [Finmap.lookup_erase]
      · simp [Finmap.lookup_insert]

theorem notMem_pruneSub {m : Finmap fun _ : String => Finset String}
    {x c : String} (t : String) (h : c ∉ (m.lookup x).getD ∅) :
    c ∉ ((ConnectionManager.pruneSub m t c).lookup x).getD ∅ := by
  by_cases hx : x = t
  · subst hx
    exact notMem_pruneSub_self m x c
  · rw [lookup_pruneSub_ne c hx]
    exact h

theorem mem_pruneSub_of_ne {m : Finmap fun _ : String => Finset String}
    {x c c1 : String} (t : String) (hne : c1 ≠ c)
    (h : c1 ∈ (m.lookup x).getD ∅) :
    c1 ∈ ((ConnectionManager.pruneSub m t c).lookup x).getD ∅ := by
  by_cases hx : x = t
  · subst hx
    unfold ConnectionManager.pruneSub
    cases hm : m.lookup x with
    | none => simp [hm] at h
    | some s =>
        have hc1 : c1 ∈ s := by simpa [hm] using h
        have hmem : c1 ∈ s.erase c := Finset.mem_erase_of_ne_of_mem hne hc1
        have hne2 : ¬s.erase c = ∅ := by
          intro he
          rw [he] at hmem
          exact absurd hmem (Finset.not_mem_empty c1)
        simp [hne2, Finmap.lookup_insert, hmem]
  · rw [lookup_pruneSub_ne c hx]
    exact h

theorem lookup_pruneSub_none_pres {m : Finmap fun _ : String => Finset String}
    {x : String} (t c : String) (h : m.lookup x = none) :
    (ConnectionManager.pruneSub m t c).lookup x = none := by
  by_cases hx : x = t
  · subst hx
    rw [pruneSub_of_lookup_none c h]
    exact h
  · rw [lookup_pruneSub_ne c hx]
    exact h

theorem lookup_pruneSub_self_none {m : Finmap fun _ : String => Finset String}
    {t c : String} (h : ∀ s, m.lookup t = some s → s ⊆ {c}) :
    (ConnectionManager.pruneSub m t c).lookup t = none := by
  unfold ConnectionManager.pruneSub
  cases hm : m.lookup t with
  | none => simpa using hm
  | some s =>
      have hsub : s ⊆ {c} := h s hm
      have hse : s.erase c = ∅ := by
        rcases Finset.subset_singleton_iff.mp hsub with h0 | h1
        · simp [h0]
        · simp [h1]
      simp [hse, Finmap.lookup_erase]

theorem foldl_pruneSub_preserves_notMem {x c : String} :
    ∀ (ts : List String) (m0 : Finmap fun _ : String => Finset String),
      c ∉ (m0.lookup x).getD ∅ →
      c ∉ ((ts.foldl (fun m t => ConnectionManager.pruneSub m t c) m0).lookup x).getD ∅
  | [], _, h => h
  | t :: ts, m0, h =>
      foldl_pruneSub_preserves_notMem ts _ (notMem_pruneSub t h)

theorem foldl_pruneSub_preserves_mem {x c c1 : String} (hne : c1 ≠ c) :
    ∀ (ts : List String) (m0 : Finmap fun _ : String => Finset String),
      c1 ∈ (m0.lookup x).getD ∅ →
      c1 ∈ ((ts.foldl (fun m t => ConnectionManager.pruneSub m t c) m0).lookup x).getD ∅
  | [], _, h => h
  | t :: ts, m0, h =>
      foldl_pruneSub_preserves_mem hne ts _ (mem_pruneSub_of_ne t hne h)

theorem foldl_pruneSub_lookup_none {x c : String} :
    ∀ (ts : List String) (m0 : Finmap fun _ : String => Finset String),
      m0.lookup x = none →
      (ts.foldl (fun m t => ConnectionManager.pruneSub m t c) m0).lookup x = none
  | [], _, h => h
  | t :: ts, m0, h =>
      foldl_pruneSub_lookup_none ts _ (lookup_pruneSub_none_pres t c h)

theorem foldl_pruneSub_lookup_of_not_mem {x c : String} :
    ∀ (ts : List String) (m0 : Finmap fun _ : String => Finset String),
      x ∉ ts →
      (ts.foldl (fun m t => ConnectionManager.pruneSub m t c) m0).lookup x = m0.lookup x
  | [], _, _ => rfl
  | t :: ts, m0, h => by
      have hx : x ≠ t := fun he => h (he ▸ List.mem_cons_self t ts)
      have ht : x ∉ ts := fun hm => h (List.mem_cons_of_mem t hm)
      simp only [List.foldl_cons]
      rw [foldl_pruneSub_lookup_of_not_mem ts _ ht, lookup_pruneSub_ne c hx]

theorem foldl_pruneSub_notMem_of_mem {c : String} :
    ∀ (ts : List String) (m0 : Finmap fun _ : String => Finset String) (t : String),
      t ∈ ts →
      c ∉ ((ts.foldl (fun m t => ConnectionManager.pruneSub m t c) m0).lookup t).getD ∅
  | t0 :: ts, m0, t, hmem => by
      by_cases ht : t = t0
      · subst ht
        exact foldl_pruneSub_preserves_notMem ts _ (notMem_pruneSub_self m0 t c)
      · have : t ∈ ts := by
          rcases List.mem_cons.mp hmem with h | h
          · exact absurd h ht
          · exact h
        exact foldl_pruneSub_notMem_of_mem ts _ t this

theorem foldl_pruneSub_erases_entry {c t : String} :
    ∀ (ts : List String) (m0 : Finmap fun _ : String => Finset String),
      t ∈ ts → ts.Nodup →
      (∀ s, m0.lookup t = some s → s ⊆ {c}) →
      (ts.foldl (fun m t => ConnectionManager.pruneSub m t c) m0).lookup t = none
  | t0 :: ts, m0, hmem, hnd, hsub => by
      by_cases ht : t = t0
      · subst ht
        have h1 : (ConnectionManager.pruneSub m0 t c).lookup t = none :=
          lookup_pruneSub_self_none hsub
        have ht2 : t ∉ ts := (List.nodup_cons.mp hnd).1
        simp only [List.foldl_cons]
        rw [foldl_pruneSub_lookup_of_not_mem ts _ ht2]
        exact h1
      · have hmem2 : t ∈ ts := by
          rcases List.mem_cons.mp hmem with h | h
          · exact absurd h ht
          · exact h
        have hsub2 : ∀ s, (ConnectionManager.pruneSub m0 t0 c).lookup t = some s → s ⊆ {c} := by
          intro s hs
          rw [lookup_pruneSub_ne c ht] at hs
          exact hsub s hs
        exact foldl_pruneSub_erases_entry ts _ hmem2 (List.nodup_cons.mp hnd).2 hsub2

/-! ### Lemmas about `disconnect` -/

theorem disconnect_of_not_connected {σ : ConnectionManager} {c : String}
    (h : σ.active_connections.lookup c = none) : σ.disconnect c = σ := by
  unfold ConnectionManager.disconnect
  rw [h]

theorem disconnect_active_self (σ : ConnectionManager) (c : String) :
    (σ.disconnect c).active_connections.lookup c = none := by
  unfold ConnectionManager.disconnect
  cases h : σ.active_connections.lookup c with
  | none => exact h
  | some w =>
      cases h2 : σ.client_tasks.lookup c with
      | none => simp [Finmap.lookup_erase]
      | some ts => simp [Finmap.lookup_erase]

theorem disconnect_active_ne {σ : ConnectionManager} {x c : String} (h : x ≠ c) :
    (σ.disconnect c).active_connections.lookup x = σ.active_connections.lookup x := by
  unfold ConnectionManager.disconnect
  cases h1 : σ.active_connections.lookup c with
  | none => rfl
  | some w =>
      cases h2 : σ.client_tasks.lookup c with
      | none => simp [Finmap.lookup_erase_ne h]
      | some ts => simp [Finmap.lookup_erase_ne h]

theorem disconnect_prunes {σ : ConnectionManager} {c : String} {w : Nat}
    (hw : σ.active_connections.lookup c = some w) :
    ∀ t ∈ σ.tasksOf c, c ∉ (σ.disconnect c).subsOf t := by
  intro t ht
  unfold ConnectionManager.disconnect
  rw [hw]
  cases h2 : σ.client_tasks.lookup c with
  | none =>
      rw [ConnectionManager.tasksOf, h2] at ht
      simp at ht
  | some ts =>
      rw [ConnectionManager.tasksOf, h2] at ht
      simp only [Option.getD_some] at ht
      exact foldl_pruneSub_notMem_of_mem (sortedList ts) _ t (mem_sortedList.mpr ht)

theorem disconnect_preserves_subs_mem {σ : ConnectionManager} {c c1 t : String}
    (hne : c1 ≠ c) (h : c1 ∈ σ.subsOf t) : c1 ∈ (σ.disconnect c).subsOf t := by
  unfold ConnectionManager.disconnect
  cases h1 : σ.active_connections.lookup c with
  | none => exact h
  | some w =>
      cases h2 : σ.client_tasks.lookup c with
      | none => exact h
      | some ts =>
          exact foldl_pruneSub_preserves_mem hne (sortedList ts) _ h

/-- C9.  Idempotence of `disconnect` and `unsubscribe_task`: repeating
either call with the same identifiers leaves the registry state exactly
as after the first call.  (Both operations are total functions in the
model, matching the code, which raises no exception on either path.) -/
theorem disconnect_unsubscribe_idempotent (σ : ConnectionManager) (c t : String) :
    (σ.disconnect c).disconnect c = σ.disconnect c ∧
    (σ.unsubscribe_task c t).unsubscribe_task c t = σ.unsubscribe_task c t := by
  constructor
  · exact disconnect_of_not_connected (disconnect_active_self σ c)
  · unfold ConnectionManager.unsubscribe_task ConnectionManager.pruneSub
    cases hm : σ.task_subscriptions.lookup t with
    | none =>
        cases hc : σ.client_tasks.lookup c with
        | none => simp [hm, hc]
        | some s =>
            simp only [hm, hc]
            have hcl : (σ.client_tasks.insert c (s.erase t)).lookup c
                = some (s.erase t) := Finmap.lookup_insert σ.client_tasks
            simp [hm, hcl, Finset.erase_idem, Finmap.insert_insert]
    | some s0 =>
        by_cases hse : s0.erase c = ∅
        · have hm2 : (σ.task_subscriptions.erase t).lookup t = none :=
            Finmap.lookup_erase t σ.task_subscriptions
          cases hc : σ.client_tasks.lookup c with
          | none => simp [hm, hse, hc, hm2]
          | some s =>
              simp only [hm, hse, hc]
              have hcl : (σ.client_tasks.insert c (s.erase t)).lookup c
                  = some (s.erase t) := Finmap.lookup_insert σ.client_tasks
              simp [hm, hse, hcl, hm2, Finset.erase_idem, Finmap.insert_insert]
        · have hm2 : (σ.task_subscriptions.insert t (s0.erase c)).lookup t
              = some (s0.erase c) := Finmap.lookup_insert σ.task_subscriptions
          cases hc : σ.client_tasks.lookup c with
          | none => simp [hm, hse, hc, hm2, Finset.erase_idem, Finmap.insert_insert]
          | some s =>
              simp only [hm, hse, hc]
              have hcl : (σ.client_tasks.insert c (s.erase t)).lookup c
                  = some (s.erase t) := Finmap.lookup_insert σ.client_tasks
              simp [hm, hse, hcl, hm2, Finset.erase_idem, Finmap.insert_insert]

/-! ### Lemmas about the delivery engine -/

theorem send_to_client_of_not_connected {σ : ConnectionManager} {ok : Nat → Bool}
    {c : String} (m : ServerMsg) (h : σ.active_connections.lookup c = none) :
    σ.send_to_client ok c m = (σ, [], false) := by
  unfold ConnectionManager.send_to_client
  rw [h]

theorem send_to_client_of_ok {σ : ConnectionManager} {ok : Nat → Bool}
    {c : String} {w : Nat} (m : ServerMsg)
    (h : σ.active_connections.lookup c = some w) (hw : ok w = true) :
    σ.send_to_client ok c m = (σ, [Eff.sent c w m], true) := by
  unfold ConnectionManager.send_to_client
  rw [h]
  simp [hw]

theorem send_to_client_of_fail {σ : ConnectionManager} {ok : Nat → Bool}
    {c : String} {w : Nat} (m : ServerMsg)
    (h : σ.active_connections.lookup c = some w) (hw : ok w = false) :
    σ.send_to_client ok c m = (σ.disconnect c, [], false) := by
  unfold ConnectionManager.send_to_client
  rw [h]
  simp [hw]

theorem send_to_client_preserves_active {σ : ConnectionManager} {ok : Nat → Bool}
    {c c1 : String} {w : Nat} (m : ServerMsg) (hw : ok w = true)
    (h1 : σ.active_connections.lookup c1 = some w) :
    ((σ.send_to_client ok c m).1).active_connections.lookup c1 = some w := by
  cases hc : σ.active_connections.lookup c with
  | none => rw [send_to_client_of_not_connected m hc]; exact h1
  | some w2 =>
      cases hok : ok w2 with
      | true => rw [send_to_client_of_ok m hc hok]; exact h1
      | false =>
          have hne : c1 ≠ c := by
            intro he
            subst he
            rw [h1] at hc
            cases hc
            rw [hw] at hok
            cases hok
          rw [send_to_client_of_fail m hc hok]
          rw [disconnect_active_ne hne]
          exact h1

theorem send_to_client_preserves_subs {σ : ConnectionManager} {ok : Nat → Bool}
    {c c1 t : String} {w : Nat} (m : ServerMsg) (hw : ok w = true)
    (h1 : σ.active_connections.lookup c1 = some w) (h2 : c1 ∈ σ.subsOf t) :
    c1 ∈ ((σ.send_to_client ok c m).1).subsOf t := by
  cases hc : σ.active_connections.lookup c with
  | none => rw [send_to_client_of_not_connected m hc]; exact h2
  | some w2 =>
      cases hok : ok w2 with
      | true => rw [send_to_client_of_ok m hc hok]; exact h2
      | false =>
          have hne : c1 ≠ c := by
            intro he
            subst he
            rw [h1] at hc
            cases hc
            rw [hw] at hok
            cases hok
          rw [send_to_client_of_fail m hc hok]
          exact disconnect_preserves_subs_mem hne h2

theorem sendLoop_preserves_active {ok : Nat → Bool} {c1 : String} {w : Nat}
    (m : ServerMsg) (hw : ok w = true) :
    ∀ (cs : List String) (σ : ConnectionManager),
      σ.active_connections.lookup c1 = some w →
      ((σ.sendLoop ok m cs).1).active_connections.lookup c1 = some w
  | [], _, h1 => h1
  | c :: cs, σ, h1 =>
      sendLoop_preserves_active m hw cs _ (send_to_client_preserves_active m hw h1)

theorem sendLoop_preserves_subs {ok : Nat → Bool} {c1 t : String} {w : Nat}
    (m : ServerMsg) (hw : ok w = true) :
    ∀ (cs : List String) (σ : ConnectionManager),
      σ.active_connections.lookup c1 = some w → c1 ∈ σ.subsOf t →
      c1 ∈ ((σ.sendLoop ok m cs).1).subsOf t
  | [], _, _, h2 => h2
  | c :: cs, σ, h1, h2 =>
      sendLoop_preserves_subs m hw cs _ (send_to_client_preserves_active m hw h1)
        (send_to_client_preserves_subs m hw h1 h2)

theorem sendLoop_delivers {ok : Nat → Bool} {c1 : String} {w : Nat}
    (m : ServerMsg) (hw : ok w = true) :
    ∀ (cs : List String) (σ : ConnectionManager),
      σ.active_connections.lookup c1 = some w → c1 ∈ cs →
      Eff.sent c1 w m ∈ (σ.sendLoop ok m cs).2.1
  | c :: cs, σ, h1, hmem => by
      simp only [ConnectionManager.sendLoop]
      by_cases hc : c = c1
      · subst hc
        rw [send_to_client_of_ok m h1 hw]
        exact List.mem_append_left _ (List.mem_singleton_self _)
      · have hmem2 : c1 ∈ cs := by
          rcases List.mem_cons.mp hmem with h | h
          · exact absurd h.symm hc
          · exact h
        have hact := send_to_client_preserves_active (c := c) (σ := σ) m hw h1
        exact List.mem_append_right _ (sendLoop_delivers m hw cs _ hact hmem2)

theorem sendLoop_count {ok : Nat → Bool} (m : ServerMsg) :
    ∀ (cs : List String) (σ : ConnectionManager),
      (σ.sendLoop ok m cs).2.2 = (σ.sendLoop ok m cs).2.1.countP Eff.isSent
  | [], _ => rfl
  | c :: cs, σ => by
      simp only [ConnectionManager.sendLoop]
      cases hc : σ.active_connections.lookup c with
      | none =>
          rw [send_to_client_of_not_connected m hc]
          simpa using sendLoop_count m cs σ
      | some w =>
          cases hok : ok w with
          | true =>
              rw [send_to_client_of_ok m hc hok]
              simp [List.countP_cons, Eff.isSent, sendLoop_count m cs σ]
          | false =>
              rw [send_to_client_of_fail m hc hok]
              simpa using sendLoop_count m cs (σ.disconnect c)

theorem sendLoop_recipients {ok : Nat → Bool} (m : ServerMsg) :
    ∀ (cs : List String) (σ : ConnectionManager) (e : Eff),
      e ∈ (σ.sendLoop ok m cs).2.1 → ∃ c ∈ cs, ∃ w2, e = Eff.sent c w2 m
  | [], _, e, h => absurd h (List.not_mem_nil e)
  | c :: cs, σ, e, h => by
      simp only [ConnectionManager.sendLoop] at h
      have step : ∀ σ2 : ConnectionManager,
          e ∈ ((σ2.sendLoop ok m cs).2.1) → ∃ c2 ∈ c :: cs, ∃ w2, e = Eff.sent c2 w2 m := by
        intro σ2 h2
        rcases sendLoop_recipients m cs σ2 e h2 with ⟨c2, hc2, w2, he⟩
        exact ⟨c2, List.mem_cons_of_mem c hc2, w2, he⟩
      cases hc : σ.active_connections.lookup c with
      | none =>
          rw [send_to_client_of_not_connected m hc] at h
          exact step σ (by simpa using h)
      | some w =>
          cases hok : ok w with
          | true =>
              rw [send_to_client_of_ok m hc hok] at h
              rcases List.mem_append.mp h with h1 | h2
              · exact ⟨c, List.mem_cons_self c cs, w, (List.mem_singleton.mp h1)⟩
              · exact step σ h2
          | false =>
              rw [send_to_client_of_fail m hc hok] at h
              exact step (σ.disconnect c) (by simpa using h)

/-- C4.  `send_to_client` never raises (it is a total function of the
state, mirroring the code's catch-all): with no live connection it
returns `false` and leaves the registry unchanged; on transport failure
it invokes `disconnect` (which removes the connection and prunes every
subscription the client had recorded) before returning `false`; and it
returns `true` exactly when the client is connected and the transport
send succeeded. -/
theorem send_to_client_spec (σ : ConnectionManager) (ok : Nat → Bool)
    (c : String) (m : ServerMsg) :
    (σ.active_connections.lookup c = none → σ.send_to_client ok c m = (σ, [], false)) ∧
    (∀ w, σ.active_connections.lookup c = some w → ok w = false →
      σ.send_to_client ok c m = (σ.disconnect c, [], false) ∧
      (σ.disconnect c).active_connections.lookup c = none ∧
      ∀ t ∈ σ.tasksOf c, c ∉ (σ.disconnect c).subsOf t) ∧
    (∀ w, σ.active_connections.lookup c = some w → ok w = true →
      σ.send_to_client ok c m = (σ, [Eff.sent c w m], true)) ∧
    ((σ.send_to_client ok c m).2.2 = true ↔
      ∃ w, σ.active_connections.lookup c = some w ∧ ok w = true) := by
  refine ⟨fun h => send_to_client_of_not_connected m h,
    fun w hw hok => ⟨send_to_client_of_fail m hw hok, disconnect_active_self σ c,
      disconnect_prunes hw⟩,
    fun w hw hok => send_to_client_of_ok m hw hok, ?_⟩
  constructor
  · intro htrue
    cases hc : σ.active_connections.lookup c with
    | none => rw [send_to_client_of_not_connected m hc] at htrue; cases htrue
    | some w =>
        cases hok : ok w with
        | true => exact ⟨w, rfl, hok⟩
        | false => rw [send_to_client_of_fail m hc hok] at htrue; cases htrue
  · rintro ⟨w, hw, hok⟩
    rw [send_to_client_of_ok m hw hok]

/-- C5.  `send_to_task_subscribers` never raises (total function); when
the task has no subscribers — an entry-less task included — it returns
`0` with no state change and no sends; in general the returned count is
exactly the number of successful deliveries performed, and every
delivery goes to a client from the snapshot of the subscriber set taken
before the first send. -/
theorem send_to_task_subscribers_spec (σ : ConnectionManager) (ok : Nat → Bool)
    (t : String) (m : ServerMsg) :
    (σ.subsOf t = ∅ → σ.send_to_task_subscribers ok t m = (σ, [], 0)) ∧
    ((σ.send_to_task_subscribers ok t m).2.2 =
      (σ.send_to_task_subscribers ok t m).2.1.countP Eff.isSent) ∧
    (∀ e ∈ (σ.send_to_task_subscribers ok t m).2.1,
      ∃ c ∈ σ.subsOf t, ∃ w, e = Eff.sent c w m) := by
  refine ⟨?_, ?_, ?_⟩
  · intro h
    unfold ConnectionManager.send_to_task_subscribers
    cases hm : σ.task_subscriptions.lookup t with
    | none => rfl
    | some s =>
        have hs : s = ∅ := by
          rw [ConnectionManager.subsOf, hm] at h
          simpa using h
        subst hs
        rfl
  · unfold ConnectionManager.send_to_task_subscribers
    cases hm : σ.task_subscriptions.lookup t with
    | none => rfl
    | some s => exact sendLoop_count m _ σ
  · intro e he
    unfold ConnectionManager.send_to_task_subscribers at he
    cases hm : σ.task_subscriptions.lookup t with
    | none => rw [hm] at he; cases he
    | some s =>
        rw [hm] at he
        rcases sendLoop_recipients m _ σ e (by simpa using he) with ⟨c, hc, w2, hew⟩
        refine ⟨c, ?_, w2, hew⟩
        rw [ConnectionManager.subsOf, hm]
        simpa using mem_sortedList.mp hc

/-! ### Lemmas about `subscribe_task`, `connect`, and claims C3 and C1 -/

theorem disconnect_erases_task {σ : ConnectionManager} {c t : String} {w : Nat}
    (hw : σ.active_connections.lookup c = some w) (ht : t ∈ σ.tasksOf c)
    (hsub : σ.subsOf t ⊆ {c}) :
    (σ.disconnect c).task_subscriptions.lookup t = none := by
  unfold ConnectionManager.disconnect
  rw [hw]
  cases hct : σ.client_tasks.lookup c with
  | none =>
      rw [ConnectionManager.tasksOf, hct] at ht
      simp at ht
  | some ts =>
      rw [ConnectionManager.tasksOf, hct] at ht
      simp only [Option.getD_some] at ht
      refine foldl_pruneSub_erases_entry (sortedList ts) _ (mem_sortedList.mpr ht)
        (sortedList_nodup ts) ?_
      intro s hs
      rw [ConnectionManager.subsOf, hs] at hsub
      simpa using hsub

theorem subscribe_task_state {σ : ConnectionManager} (ok : Nat → Bool)
    {c : String} {w : Nat} (t : String)
    (hc : σ.active_connections.lookup c = some w) :
    (σ.subscribe_task ok c t).1 =
      (ConnectionManager.send_to_client
        ⟨σ.active_connections,
          σ.task_subscriptions.insert t (insert c (σ.subsOf t)),
          σ.client_tasks.insert c (insert t (σ.tasksOf c))⟩
        ok c (.subscribed t)).1 := by
  unfold ConnectionManager.subscribe_task
  rw [hc]
  rfl

/-- C3.  For a connected client `c`, `Subscribe(c, t)` followed by
`Disconnect(c)` removes `c`'s connection and removes `c` from `t`'s
subscriber set; when `c` was `t`'s last subscriber (no other subscriber
existed before the subscribe) the task's entry is deleted outright, so
`t` is absent from the `Stats` snapshot and a subsequent fan-out for `t`
returns `0` and delivers nothing. -/
theorem subscribe_then_disconnect_spec (σ : ConnectionManager) (ok : Nat → Bool)
    (c t : String) (w : Nat)
    (hc : σ.active_connections.lookup c = some w) :
    ((σ.subscribe_task ok c t).1.disconnect c).active_connections.lookup c = none ∧
    c ∉ ((σ.subscribe_task ok c t).1.disconnect c).subsOf t ∧
    (σ.subsOf t ⊆ {c} →
      ((σ.subscribe_task ok c t).1.disconnect c).task_subscriptions.lookup t = none ∧
      t ∉ ((σ.subscribe_task ok c t).1.disconnect c).get_stats.tasks_with_subscribers ∧
      ∀ ok2 m, ((σ.subscribe_task ok c t).1.disconnect c).send_to_task_subscribers ok2 t m
        = (((σ.subscribe_task ok c t).1.disconnect c), [], 0)) := by
  have hσa := subscribe_task_state ok t hc
  set σa : ConnectionManager :=
    ⟨σ.active_connections,
      σ.task_subscriptions.insert t (insert c (σ.subsOf t)),
      σ.client_tasks.insert c (insert t (σ.tasksOf c))⟩ with hσadef
  have hact : σa.active_connections.lookup c = some w := hc
  have hsame : (σ.subscribe_task ok c t).1.disconnect c = σa.disconnect c := by
    rw [hσa]
    cases hok : ok w with
    | true => rw [send_to_client_of_ok _ hact hok]
    | false =>
        rw [send_to_client_of_fail _ hact hok]
        exact disconnect_of_not_connected (disconnect_active_self σa c)
  have htask : t ∈ σa.tasksOf c := by
    show t ∈ (σa.client_tasks.lookup c).getD ∅
    rw [hσadef]
    rw [Finmap.lookup_insert]
    exact Finset.mem_insert_self t _
  have hsubs : σa.task_subscriptions.lookup t = some (insert c (σ.subsOf t)) := by
    rw [hσadef]
    exact Finmap.lookup_insert _
  rw [hsame]
  refine ⟨disconnect_active_self σa c, disconnect_prunes hact t htask, fun hlast => ?_⟩
  have herase : (σa.disconnect c).task_subscriptions.lookup t = none := by
    refine disconnect_erases_task hact htask ?_
    show σa.subsOf t ⊆ {c}
    rw [ConnectionManager.subsOf, hsubs]
    simp only [Option.getD_some]
    exact Finset.insert_subset_iff.mpr ⟨Finset.mem_singleton_self c, hlast⟩
  refine ⟨herase, ?_, ?_⟩
  · show t ∉ sortedList (σa.disconnect c).task_subscriptions.keys
    rw [mem_sortedList, Finmap.mem_keys]
    exact Finmap.lookup_eq_none.mp herase
  · intro ok2 m
    unfold ConnectionManager.send_to_task_subscribers
    rw [herase]

theorem connect_of_ok {σ : ConnectionManager} {ok : Nat → Bool} {c : String}
    {w : Nat} (hw : ok w = true) :
    σ.connect ok c w true =
      (⟨σ.active_connections.insert c w, σ.task_subscriptions,
          σ.client_tasks.insert c ∅⟩,
        (match σ.active_connections.lookup c with
         | some oldw => [Eff.closed oldw]
         | none => []) ++ [Eff.sent c w (.connected c)],
        true) := by
  have hlk : (Finmap.insert c w σ.active_connections).lookup c = some w :=
    Finmap.lookup_insert _
  have hsend := send_to_client_of_ok
    (σ := ⟨σ.active_connections.insert c w, σ.task_subscriptions,
      σ.client_tasks.insert c ∅⟩) (.connected c) hlk hw
  simp [ConnectionManager.connect, hsend]

/-- C1.  For any nonempty sequence of `connect` calls for one client id
(each with a successful handshake and a channel that accepts the
acknowledgement), the connection table ends holding exactly the last
channel for that id (the table is a finite map, so at most one live
connection per id is structural); the connection that was live before
the sequence is closed by the first call, and every non-final channel of
the sequence is closed by its successor. -/
theorem connect_sequence_spec (ok : Nat → Bool) (cid : String) :
    ∀ (ws : List Nat) (σ : ConnectionManager) (hne : ws ≠ [])
      (hok : ∀ w ∈ ws, ok w = true),
      (σ.connectSeq ok cid ws).1.active_connections.lookup cid
        = some (ws.getLast hne) ∧
      (∀ oldw, σ.active_connections.lookup cid = some oldw →
        Eff.closed oldw ∈ (σ.connectSeq ok cid ws).2) ∧
      (∀ w ∈ ws.dropLast, Eff.closed w ∈ (σ.connectSeq ok cid ws).2)
  | [w], σ, _, hok => by
      have hw : ok w = true := hok w (List.mem_singleton_self w)
      simp only [ConnectionManager.connectSeq]
      rw [connect_of_ok hw]
      refine ⟨Finmap.lookup_insert _, ?_, ?_⟩
      · intro oldw hold
        rw [hold]
        simp
      · intro w2 hw2
        simp at hw2
  | w :: w2 :: ws, σ, _, hok => by
      have hw : ok w = true := hok w (List.mem_cons_self _ _)
      have hoktail : ∀ x ∈ w2 :: ws, ok x = true :=
        fun x hx => hok x (List.mem_cons_of_mem w hx)
      have hnetail : w2 :: ws ≠ [] := List.cons_ne_nil w2 ws
      simp only [ConnectionManager.connectSeq]
      rw [connect_of_ok hw]
      have ih := connect_sequence_spec ok cid (w2 :: ws)
        ⟨σ.active_connections.insert cid w, σ.task_subscriptions,
          σ.client_tasks.insert cid ∅⟩ hnetail hoktail
      refine ⟨?_, ?_, ?_⟩
      · rw [List.getLast_cons hnetail]
        exact ih.1
      · intro oldw hold
        rw [hold]
        exact List.mem_append_left _ (List.mem_append_left _ (List.mem_singleton_self _))
      · intro x hx
        rw [List.dropLast_cons₂] at hx
        rcases List.mem_cons.mp hx with h | h
        · subst h
          refine List.mem_append_right _ (ih.2.1 x ?_)
          exact Finmap.lookup_insert _
        · exact List.mem_append_right _ (ih.2.2 x h)

/-! ### Lemmas about the webhook fan-out -/

theorem fanout_delivers {σ : ConnectionManager} {ok : Nat → Bool} {t c1 : String}
    {w : Nat} (m : ServerMsg) (hw : ok w = true)
    (h1 : σ.active_connections.lookup c1 = some w) (h2 : c1 ∈ σ.subsOf t) :
    Eff.sent c1 w m ∈ (σ.send_to_task_subscribers ok t m).2.1 := by
  unfold ConnectionManager.send_to_task_subscribers
  cases hm : σ.task_subscriptions.lookup t with
  | none =>
      rw [ConnectionManager.subsOf, hm] at h2
      simp at h2
  | some s =>
      apply sendLoop_delivers m hw _ σ h1
      rw [ConnectionManager.subsOf, hm] at h2
      simp only [Option.getD_some] at h2 ⊢
      exact mem_sortedList.mpr h2

theorem fanout_preserves_active {σ : ConnectionManager} {ok : Nat → Bool}
    {c1 : String} {w : Nat} (t2 : String) (m : ServerMsg) (hw : ok w = true)
    (h1 : σ.active_connections.lookup c1 = some w) :
    ((σ.send_to_task_subscribers ok t2 m).1).active_connections.lookup c1 = some w := by
  unfold ConnectionManager.send_to_task_subscribers
  cases hm : σ.task_subscriptions.lookup t2 with
  | none => exact h1
  | some s => exact sendLoop_preserves_active m hw _ σ h1

theorem fanout_preserves_subs {σ : ConnectionManager} {ok : Nat → Bool}
    {c1 t : String} {w : Nat} (t2 : String) (m : ServerMsg) (hw : ok w = true)
    (h1 : σ.active_connections.lookup c1 = some w) (h2 : c1 ∈ σ.subsOf t) :
    c1 ∈ ((σ.send_to_task_subscribers ok t2 m).1).subsOf t := by
  unfold ConnectionManager.send_to_task_subscribers
  cases hm : σ.task_subscriptions.lookup t2 with
  | none => exact h2
  | some s => exact sendLoop_preserves_subs m hw _ σ h1 h2

theorem handle_task_stopped_delivers_completed
    (env : Env) (σ : ConnectionManager) (ok : Nat → Bool) (p : ManusWebhookPayload)
    (td : TaskDetail) (td2 : TaskData) (c1 t L : String) (w : Nat)
    (hptd : p.task_detail = some td) (htid : td.task_id = t)
    (hsr : td.stop_reason = some "finish")
    (hfind : env.find_by_manus_task_id t = .ok (some L))
    (hget : env.getTask L = .ok (some td2))
    (hvt : ¬td2.task_type = some "video_generation")
    (hdl : env.download_completed_task t = .ok ())
    (hc : σ.active_connections.lookup c1 = some w) (hw : ok w = true)
    (hs : c1 ∈ σ.subsOf t) :
    ∃ m, Eff.sent c1 w m ∈ (handle_task_stopped env σ ok p).2.1 ∧
      m.typeTag = "task_completed" ∧
      m.downloadUrl = some ("/api/tasks/" ++ L ++ "/download") := by
  have hgtid : p.get_task_id = some t := by
    simp [ManusWebhookPayload.get_task_id, hptd, htid]
  have hvt2 : decide (td2.task_type = some "video_generation") = false :=
    decide_eq_false hvt
  unfold handle_task_stopped
  rw [hgtid]
  simp [hptd, hsr, hfind, hget, hdl, hvt2]
  exact ⟨_, fanout_delivers _ hw hc hs, rfl, rfl⟩

theorem handle_task_stopped_reports_download_failure
    (env : Env) (σ : ConnectionManager) (ok : Nat → Bool) (p : ManusWebhookPayload)
    (td : TaskDetail) (td2 : TaskData) (c1 t L e : String) (w : Nat)
    (hptd : p.task_detail = some td) (htid : td.task_id = t)
    (hsr : td.stop_reason = some "finish")
    (hfind : env.find_by_manus_task_id t = .ok (some L))
    (hget : env.getTask L = .ok (some td2))
    (hvt : ¬td2.task_type = some "video_generation")
    (hdl : env.download_completed_task t = .error e)
    (hc : σ.active_connections.lookup c1 = some w) (hw : ok w = true)
    (hs : c1 ∈ σ.subsOf t) :
    ∃ m, Eff.sent c1 w m ∈ (handle_task_stopped env σ ok p).2.1 ∧
      m.isFailedType = true := by
  have hgtid : p.get_task_id = some t := by
    simp [ManusWebhookPayload.get_task_id, hptd, htid]
  have hvt2 : decide (td2.task_type = some "video_generation") = false :=
    decide_eq_false hvt
  unfold handle_task_stopped
  rw [hgtid]
  simp [hptd, hsr, hfind, hget, hdl, hvt2]
  exact ⟨_, fanout_delivers _ hw hc hs, rfl⟩

theorem handle_video_task_stopped_reports_script_failure
    (env : Env) (σ : ConnectionManager) (ok : Nat → Bool) (c1 t L e : String) (w : Nat)
    (hclient : env.get_manus_client = .ok ())
    (hsvc : env.handle_script_generation_complete L t = .error e)
    (hc : σ.active_connections.lookup c1 = some w) (hw : ok w = true)
    (hs : c1 ∈ σ.subsOf t) :
    ∃ m, Eff.sent c1 w m ∈
        (handle_video_task_stopped env σ ok (some L) (some "script_generation") t).2.1 ∧
      m.isFailedType = true := by
  cases hupd : env.update L "failed" with
  | ok u =>
      unfold handle_video_task_stopped
      simp [hclient, hsvc, hupd]
      exact ⟨_, fanout_delivers _ hw hc hs, rfl⟩
  | error e2 =>
      unfold handle_video_task_stopped
      simp [hclient, hsvc, hupd]
      exact ⟨_, Or.inl (fanout_delivers _ hw hc hs), rfl⟩

theorem handle_video_task_stopped_reports_video_failure
    (env : Env) (σ : ConnectionManager) (ok : Nat → Bool) (c1 t L e : String) (w : Nat)
    (hclient : env.get_manus_client = .ok ())
    (hvid : env.handle_video_generation_complete L t = .error e ∨
      (∃ vp, env.handle_video_generation_complete L t = .ok vp ∧
        env.update L "completed" = .error e))
    (hc : σ.active_connections.lookup c1 = some w) (hw : ok w = true)
    (hs : c1 ∈ σ.subsOf t) :
    ∃ m, Eff.sent c1 w m ∈
        (handle_video_task_stopped env σ ok (some L) (some "video_generation") t).2.1 ∧
      m.isFailedType = true := by
  rcases hvid with hsvc | ⟨vp, hok2, hupdc⟩
  · cases hupd : env.update L "failed" with
    | ok u =>
        unfold handle_video_task_stopped
        simp [hclient, hsvc, hupd]
        exact ⟨_, fanout_delivers _ hw hc hs, rfl⟩
    | error e2 =>
        unfold handle_video_task_stopped
        simp [hclient, hsvc, hupd]
        exact ⟨_, Or.inl (fanout_delivers _ hw hc hs), rfl⟩
  · cases hupd : env.update L "failed" with
    | ok u =>
        unfold handle_video_task_stopped
        simp [hclient, hok2, hupdc, hupd]
        exact ⟨_, fanout_delivers _ hw hc hs, rfl⟩
    | error e2 =>
        unfold handle_video_task_stopped
        simp [hclient, hok2, hupdc, hupd]
        exact ⟨_, Or.inl (fanout_delivers _ hw hc hs), rfl⟩

theorem handle_task_stopped_failure_reported
    (env : Env) (σ : ConnectionManager) (ok : Nat → Bool) (p : ManusWebhookPayload)
    (td : TaskDetail) (td2 : TaskData) (c1 t L e : String) (w : Nat)
    (hptd : p.task_detail = some td) (htid : td.task_id = t)
    (hsr : td.stop_reason = some "finish")
    (hfind : env.find_by_manus_task_id t = .ok (some L))
    (hget : env.getTask L = .ok (some td2))
    (hc : σ.active_connections.lookup c1 = some w) (hw : ok w = true)
    (hs : c1 ∈ σ.subsOf t)
    (hcase :
      (¬td2.task_type = some "video_generation" ∧
        env.download_completed_task t = .error e) ∨
      (td2.task_type = some "video_generation" ∧ td2.step = some "script_generation" ∧
        env.get_manus_client = .ok () ∧
        env.handle_script_generation_complete L t = .error e) ∨
      (td2.task_type = some "video_generation" ∧ td2.step = some "video_generation" ∧
        env.get_manus_client = .ok () ∧
        (env.handle_video_generation_complete L t = .error e ∨
          (∃ vp, env.handle_video_generation_complete L t = .ok vp ∧
            env.update L "completed" = .error e)))) :
    ∃ m, Eff.sent c1 w m ∈ (handle_task_stopped env σ ok p).2.1 ∧
      m.isFailedType = true := by
  rcases hcase with ⟨hvt, hdl⟩ | ⟨hvt, hstep, hclient, hsvc⟩ | ⟨hvt, hstep, hclient, hvid⟩
  · exact handle_task_stopped_reports_download_failure env σ ok p td td2 c1 t L e w
      hptd htid hsr hfind hget hvt hdl hc hw hs
  · have hgtid : p.get_task_id = some t := by
      simp [ManusWebhookPayload.get_task_id, hptd, htid]
    have hvt2 : decide (td2.task_type = some "video_generation") = true :=
      decide_eq_true hvt
    have heq : handle_task_stopped env σ ok p
        = handle_video_task_stopped env σ ok (some L) (some "script_generation") t := by
      unfold handle_task_stopped
      rw [hgtid]
      simp [hptd, hsr, hfind, hget, hvt2, hstep]
    rw [heq]
    exact handle_video_task_stopped_reports_script_failure env σ ok c1 t L e w
      hclient hsvc hc hw hs
  · have hgtid : p.get_task_id = some t := by
      simp [ManusWebhookPayload.get_task_id, hptd, htid]
    have hvt2 : decide (td2.task_type = some "video_generation") = true :=
      decide_eq_true hvt
    have heq : handle_task_stopped env σ ok p
        = handle_video_task_stopped env σ ok (some L) (some "video_generation") t := by
      unfold handle_task_stopped
      rw [hgtid]
      simp [hptd, hsr, hfind, hget, hvt2, hstep]
    rw [heq]
    exact handle_video_task_stopped_reports_video_failure env σ ok c1 t L e w
      hclient hvid hc hw hs

/-- C6.  A connected, subscribed client receives, upon ingestion of a
`task_stopped`/`finish` webhook for its task (non-video task with a
known local record and a successful download), a push whose `type` is
`"task_completed"` and whose `download_url` points at the local task's
download route. -/
theorem completed_event_delivers_download
    (env : Env) (σ : ConnectionManager) (ok : Nat → Bool) (p : ManusWebhookPayload)
    (td : TaskDetail) (td2 : TaskData) (c1 t L : String) (w : Nat)
    (hptype : p.event_type = "task_stopped")
    (hptd : p.task_detail = some td) (htid : td.task_id = t)
    (hsr : td.stop_reason = some "finish")
    (hadd : env.add_webhook_event t = .ok ())
    (hfind : env.find_by_manus_task_id t = .ok (some L))
    (hget : env.getTask L = .ok (some td2))
    (hvt : ¬td2.task_type = some "video_generation")
    (hdl : env.download_completed_task t = .ok ())
    (hc : σ.active_connections.lookup c1 = some w) (hw : ok w = true)
    (hs : c1 ∈ σ.subsOf t) :
    ∃ m, Eff.sent c1 w m ∈ (handle_webhook_event env σ ok p).2 ∧
      m.typeTag = "task_completed" ∧
      m.downloadUrl = some ("/api/tasks/" ++ L ++ "/download") := by
  have hgtid : p.get_task_id = some t := by
    simp [ManusWebhookPayload.get_task_id, hptd, htid]
  have hc1 := fanout_preserves_active (σ := σ) t
    (ServerMsg.webhookEvent p.event_id "task_stopped" t p.get_status p.get_message)
    hw hc
  have hs1 := fanout_preserves_subs (σ := σ) t
    (ServerMsg.webhookEvent p.event_id "task_stopped" t p.get_status p.get_message)
    hw hc hs
  obtain ⟨m, hmem, hty, hurl⟩ := handle_task_stopped_delivers_completed env _ ok p
    td td2 c1 t L w hptd htid hsr hfind hget hvt hdl hc1 hw hs1
  unfold handle_webhook_event
  rw [hgtid]
  simp [hadd, hptype]
  exact ⟨m, Or.inr hmem, hty, hurl⟩

/-- C8 (amended).  When a collaborator raises while a
`task_stopped`/`finish` event is being processed — the PPT download on
a plain task, the script-chaining call on a video task in its script
step, or the video-chaining call or the `status="completed"` update on
a video task in its video step — the adapter catches the exception and
each connected subscriber of the task receives a push of a failed type
(`"task_failed"`, `"script_generation_failed"` or
`"video_generation_failed"` respectively, per the code's inner
handlers); the exception does not escape `handle_webhook_event`, which
is a total function here as in the code (its top-level `except` only
logs). -/
theorem completed_event_failure_reported
    (env : Env) (σ : ConnectionManager) (ok : Nat → Bool) (p : ManusWebhookPayload)
    (td : TaskDetail) (td2 : TaskData) (c1 t L e : String) (w : Nat)
    (hptype : p.event_type = "task_stopped")
    (hptd : p.task_detail = some td) (htid : td.task_id = t)
    (hsr : td.stop_reason = some "finish")
    (hadd : env.add_webhook_event t = .ok ())
    (hfind : env.find_by_manus_task_id t = .ok (some L))
    (hget : env.getTask L = .ok (some td2))
    (hc : σ.active_connections.lookup c1 = some w) (hw : ok w = true)
    (hs : c1 ∈ σ.subsOf t)
    (hcase :
      (¬td2.task_type = some "video_generation" ∧
        env.download_completed_task t = .error e) ∨
      (td2.task_type = some "video_generation" ∧ td2.step = some "script_generation" ∧
        env.get_manus_client = .ok () ∧
        env.handle_script_generation_complete L t = .error e) ∨
      (td2.task_type = some "video_generation" ∧ td2.step = some "video_generation" ∧
        env.get_manus_client = .ok () ∧
        (env.handle_video_generation_complete L t = .error e ∨
          (∃ vp, env.handle_video_generation_complete L t = .ok vp ∧
            env.update L "completed" = .error e)))) :
    ∃ m, Eff.sent c1 w m ∈ (handle_webhook_event env σ ok p).2 ∧
      m.isFailedType = true := by
  have hgtid : p.get_task_id = some t := by
    simp [ManusWebhookPayload.get_task_id, hptd, htid]
  have hc1 := fanout_preserves_active (σ := σ) t
    (ServerMsg.webhookEvent p.event_id "task_stopped" t p.get_status p.get_message)
    hw hc
  have hs1 := fanout_preserves_subs (σ := σ) t
    (ServerMsg.webhookEvent p.event_id "task_stopped" t p.get_status p.get_message)
    hw hc hs
  obtain ⟨m, hmem, hty⟩ := handle_task_stopped_failure_reported env _ ok p
    td td2 c1 t L e w hptd htid hsr hfind hget hc1 hw hs1 hcase
  unfold handle_webhook_event
  rw [hgtid]
  simp [hadd, hptype]
  exact ⟨m, Or.inr hmem, hty⟩

/-! ### Concrete evaluations and witnesses -/

/-- C2.  Evaluation of the claimed invariant on a reachable state: after
`connect("c", 1); subscribe("c", "t"); connect("c", 2)` the two
subscription indices disagree (`"c"` is recorded as a subscriber of
`"t"`, but `"t"` is not in `"c"`'s task set), and after a further
`disconnect("c")` the subscriber set of `"t"` still contains `"c"`
although `"c"` has no connection — the replacing `connect` resets
`_client_tasks` without pruning `_task_subscriptions`, so the
subscription is never cleaned up. -/
theorem replace_connect_ghost_subscription :
    ghost2.active_connections.lookup "c" = some 2 ∧
    "c" ∈ ghost2.subsOf "t" ∧
    "t" ∉ ghost2.tasksOf "c" ∧
    (ghost2.disconnect "c").active_connections.lookup "c" = none ∧
    "c" ∈ (ghost2.disconnect "c").subsOf "t" := by
  decide

/-- C7.  Evaluation of the command handler at a frame that is valid JSON
but not an object (e.g. the client sends `5`): the handler raises
(`AttributeError` from `message.get` in the source), so the endpoint's
read loop exits and the connection is dropped with no `"error"` reply
and no push at all — while a missing `task_id` on a subscribe (Scenario
C) is answered with an `"error"` push and no state change. -/
theorem non_object_frame_drops_connection :
    (endpoint_step connectedC okAll "c" ClientJson.nonObject).2 = [] ∧
    (endpoint_step connectedC okAll "c" ClientJson.nonObject).1.active_connections.lookup "c"
      = none ∧
    endpoint_step connectedC okAll "c" (ClientJson.obj (some "subscribe") none)
      = (connectedC, [Eff.sent "c" 1 (ServerMsg.errorMsg "订阅需要提供 task_id")]) := by
  decide

/-- C8 (counterexample to the unrestricted claim).  When
`tracker.update` raises while a `task_stopped`/`ask` event is processed,
the exception escapes `handle_task_stopped` and is swallowed by
`handle_webhook_event`'s top-level catch, which only logs: the
subscriber receives the generic `webhook_event` push and no push of a
failed type at all. -/
theorem ask_update_failure_not_reported :
    (handle_task_stopped envFailUpd subClient okAll pAsk).2.2 = some "boom" ∧
    (handle_webhook_event envFailUpd subClient okAll pAsk).2
      = [Eff.sent "c1" 1 (ServerMsg.webhookEvent "e1" "task_stopped" "t1" none none)] := by
  decide

/-- C10 (counterexample to "per-task subscriber counts").  Two reachable
registry states whose subscriber counts for task `"t"` differ (2 vs 1)
produce identical `get_stats` outputs: the snapshot lists the task ids
with subscribers but contains no per-task subscriber counts. -/
theorem stats_lacks_per_task_counts :
    statsA.get_stats = statsB.get_stats ∧
    (statsA.subsOf "t").card = 2 ∧ (statsB.subsOf "t").card = 1 := by
  decide

/-- C10 (amended).  `get_stats` is a pure function of the state (the
code performs no mutation) reporting the number of live connections, the
number of task entries, the list of connected client ids and the list of
task ids with an entry; under the invariant that stored subscriber sets
are nonempty (true in every reachable state), the listed task ids are
exactly the tasks with at least one subscriber. -/
theorem get_stats_spec (σ : ConnectionManager) (hwf : σ.statsWF) :
    (σ.get_stats).active_connections = σ.active_connections.keys.card ∧
    (σ.get_stats).task_subscriptions = σ.task_subscriptions.keys.card ∧
    (∀ c, c ∈ (σ.get_stats).clients ↔ (σ.active_connections.lookup c).isSome) ∧
    (∀ t, t ∈ (σ.get_stats).tasks_with_subscribers ↔ σ.subsOf t ≠ ∅) := by
  refine ⟨rfl, rfl, ?_, ?_⟩
  · intro c
    show c ∈ sortedList σ.active_connections.keys ↔ _
    rw [mem_sortedList, Finmap.mem_keys]
    exact Finmap.lookup_isSome.symm
  · intro t
    constructor
    · intro ht
      have htk : t ∈ σ.task_subscriptions.keys := by
        rwa [show (σ.get_stats).tasks_with_subscribers
          = sortedList σ.task_subscriptions.keys from rfl, mem_sortedList] at ht
      exact hwf t htk
    · intro hne
      show t ∈ sortedList σ.task_subscriptions.keys
      rw [mem_sortedList, Finmap.mem_keys]
      cases hm : σ.task_subscriptions.lookup t with
      | none =>
          refine absurd ?_ hne
          rw [ConnectionManager.subsOf, hm]
          rfl
      | some s =>
          rw [← Finmap.lookup_isSome, hm]
          rfl

/-- Witness for C1 at Scenario D: two connects as `"dup"`; the table
ends at socket `2` and socket `1` was closed. -/
theorem connect_sequence_spec_witness :
    (([1, 2] : List Nat) ≠ [] ∧ ∀ w ∈ ([1, 2] : List Nat), okAll w = true) ∧
    (ConnectionManager.init.connectSeq okAll "dup" [1, 2]).1.active_connections.lookup "dup"
      = some 2 ∧
    Eff.closed 1 ∈ (ConnectionManager.init.connectSeq okAll "dup" [1, 2]).2 :=
  ⟨⟨by decide, by decide⟩,
    (connect_sequence_spec okAll "dup" [1, 2] ConnectionManager.init (by decide) (by decide)).1,
    (connect_sequence_spec okAll "dup" [1, 2] ConnectionManager.init (by decide)
      (by decide)).2.2 1 (by decide)⟩

/-- Witness for C3 at Scenario B: `"c"` subscribes to `"t"` then
disconnects; its connection and the task entry are gone. -/
theorem subscribe_then_disconnect_spec_witness :
    (connectedC.active_connections.lookup "c" = some 1 ∧
      connectedC.subsOf "t" ⊆ {"c"}) ∧
    ((connectedC.subscribe_task okAll "c" "t").1.disconnect "c").active_connections.lookup "c"
      = none ∧
    ((connectedC.subscribe_task okAll "c" "t").1.disconnect "c").task_subscriptions.lookup "t"
      = none :=
  ⟨⟨by decide, by decide⟩,
    (subscribe_then_disconnect_spec connectedC okAll "c" "t" 1 (by decide)).1,
    ((subscribe_then_disconnect_spec connectedC okAll "c" "t" 1 (by decide)).2.2
      (by decide)).1⟩

/-- Witness for C4: a successful send to the connected client `"c"`. -/
theorem send_to_client_spec_witness :
    connectedC.active_connections.lookup "c" = some 1 ∧
    connectedC.send_to_client okAll "c" ServerMsg.pong
      = (connectedC, [Eff.sent "c" 1 ServerMsg.pong], true) :=
  ⟨by decide,
    (send_to_client_spec connectedC okAll "c" ServerMsg.pong).2.2.1 1 (by decide) rfl⟩

/-- Witness for C5: a task nobody ever subscribed to gets `0` with no
state change and no sends. -/
theorem send_to_task_subscribers_spec_witness :
    ConnectionManager.init.subsOf "t0" = ∅ ∧
    ConnectionManager.init.send_to_task_subscribers okAll "t0" ServerMsg.pong
      = (ConnectionManager.init, [], 0) :=
  ⟨rfl,
    (send_to_task_subscribers_spec ConnectionManager.init okAll "t0" ServerMsg.pong).1 rfl⟩

/-- Witness for C6 at Scenario A: `"c1"` subscribed to `"t1"` receives
the `task_completed` push with the download route of local task
`"L1"`. -/
theorem completed_event_delivers_download_witness :
    ∃ m, Eff.sent "c1" 1 m ∈ (handle_webhook_event envOk subClient okAll pFinish).2 ∧
      m.typeTag = "task_completed" ∧
      m.downloadUrl = some ("/api/tasks/" ++ "L1" ++ "/download") :=
  completed_event_delivers_download envOk subClient okAll pFinish
    { task_id := "t1", stop_reason := some "finish" } { title := some "Title" }
    "c1" "t1" "L1" 1 rfl rfl rfl rfl rfl rfl rfl (by decide) rfl (by decide) rfl
    (by decide)

/-- Witness for C8 (amended), one per failure path: the PPT download,
the script-chaining call, the video-chaining call, and the completed
status update each raise `"boom"`; `"c1"` receives a failed-type push
every time. -/
theorem completed_event_failure_reported_witness :
    (∃ m, Eff.sent "c1" 1 m ∈ (handle_webhook_event envFailDl subClient okAll pFinish).2 ∧
      m.isFailedType = true) ∧
    (∃ m, Eff.sent "c1" 1 m ∈ (handle_webhook_event envScriptFail subClient okAll pFinish).2 ∧
      m.isFailedType = true) ∧
    (∃ m, Eff.sent "c1" 1 m ∈ (handle_webhook_event envVideoFail subClient okAll pFinish).2 ∧
      m.isFailedType = true) ∧
    (∃ m, Eff.sent "c1" 1 m ∈ (handle_webhook_event envVideoUpdFail subClient okAll pFinish).2 ∧
      m.isFailedType = true) :=
  ⟨completed_event_failure_reported envFailDl subClient okAll pFinish
      { task_id := "t1", stop_reason := some "finish" } { title := some "Title" }
      "c1" "t1" "L1" "boom" 1 rfl rfl rfl rfl rfl rfl rfl (by decide) rfl (by decide)
      (Or.inl ⟨by decide, rfl⟩),
    completed_event_failure_reported envScriptFail subClient okAll pFinish
      { task_id := "t1", stop_reason := some "finish" }
      ⟨some "Title", some "video_generation", some "script_generation"⟩
      "c1" "t1" "L1" "boom" 1 rfl rfl rfl rfl rfl rfl rfl (by decide) rfl (by decide)
      (Or.inr (Or.inl ⟨rfl, rfl, rfl, rfl⟩)),
    completed_event_failure_reported envVideoFail subClient okAll pFinish
      { task_id := "t1", stop_reason := some "finish" }
      ⟨some "Title", some "video_generation", some "video_generation"⟩
      "c1" "t1" "L1" "boom" 1 rfl rfl rfl rfl rfl rfl rfl (by decide) rfl (by decide)
      (Or.inr (Or.inr ⟨rfl, rfl, rfl, Or.inl rfl⟩)),
    completed_event_failure_reported envVideoUpdFail subClient okAll pFinish
      { task_id := "t1", stop_reason := some "finish" }
      ⟨some "Title", some "video_generation", some "video_generation"⟩
      "c1" "t1" "L1" "boom" 1 rfl rfl rfl rfl rfl rfl rfl (by decide) rfl (by decide)
      (Or.inr (Or.inr ⟨rfl, rfl, rfl, Or.inr ⟨none, rfl, rfl⟩⟩))⟩

/-- Witness for C10 (amended) at the reachable state `statsB`. -/
theorem get_stats_spec_witness :
    statsB.statsWF ∧ (statsB.get_stats).task_subscriptions
      = statsB.task_subscriptions.keys.card :=
  ⟨by decide, (get_stats_spec statsB (by decide)).2.1⟩

end Txt2Pptx

